import Mathlib

/-!
Shallow embedding of `src/leaflet-gsheets-asc.js`: the row-to-geometry
conversion (`addPolygons`, `addPoints`), the layer-replacement protocol over
the shared `polygonLayer` / `pointGroupLayer` slots, and the hover/click
interaction handlers, together with proofs of the spec's testable properties.

Spreadsheet rows are flat maps from column name to string; a missing or
undefined column is `none`.  JavaScript exceptions (the unguarded
`JSON.parse`) are modelled with `Except`, and the side effects already
performed before the throw are kept in the returned map state.
-/

/-- A JSON value as produced by `JSON.parse` on a coordinate payload:
nested arrays of numbers (integers suffice for the embedded coordinates). -/
inductive Json where
  | num (n : Int)
  | arr (xs : List Json)

/-- One row of the polygon spreadsheet ("MoveAscension_Polys").  Column
access on a JS object yields `undefined` for a missing column, hence
`Option String` for every field.  `include` and `Type` are Lean keywords, so
the field names are quoted. -/
structure PolyRow where
  «include» : Option String
  geometry : Option String
  geotype : Option String
  Title : Option String
  «Type» : Option String
  file_num : Option String
  myinfo : Option String

/-- One row of the point spreadsheet ("MoveAscension_Points"). -/
structure PointRow where
  lat : Option String
  long : Option String
  «Type» : Option String
  Title : Option String
  Comments : Option String
  Marker_Icon : Option String
  Color : Option String

/-- The `geometry` member of an emitted Feature:
`{"type": data[row].geotype, "coordinates": coords}`. -/
structure Geometry where
  type : Option String
  coordinates : Json

/-- The `properties` member of an emitted Feature: the four columns copied
verbatim (note the JS key for the category is lowercase `type`, holding the
row's `Type` column). -/
structure FeatureProps where
  Title : Option String
  type : Option String
  file_num : Option String
  myinfo : Option String

/-- A GeoJSON Feature as pushed by the `addPolygons` loop. -/
structure Feature where
  type : String
  geometry : Geometry
  properties : FeatureProps

/-- The Feature pushed for an included row whose `geometry` column parsed to
`coords` (lines 85-97 of the source). -/
def mkFeature (r : PolyRow) (coords : Json) : Feature :=
  { type := "Feature"
    geometry := { type := r.geotype, coordinates := coords }
    properties := { Title := r.Title, type := r.«Type»
                    file_num := r.file_num, myinfo := r.myinfo } }

/-- The `for (var row in data)` loop of `addPolygons` (lines 80-99): skip a
row unless `data[row].include == "y"`, otherwise `JSON.parse` its `geometry`
column (an exception aborts the whole batch) and push one Feature.  The
parse function is a parameter: `JSON.parse` is a browser builtin external to
the repository. -/
def buildFeatures (parse : Option String → Option Json) :
    List PolyRow → Except Unit (List Feature)
  | [] => .ok []
  | r :: rs =>
    if r.«include» = some "y" then
      match parse r.geometry with
      | none => .error ()
      | some coords => (buildFeatures parse rs).map (mkFeature r coords :: ·)
    else
      buildFeatures parse rs

/-- The GeoJSON FeatureCollection `geojsonPolys` (lines 75-99). -/
structure FeatureCollection where
  type : String
  features : List Feature

/-- `geojsonPolys` after the row loop: a FeatureCollection holding the
features of the included rows, or the exception aborting the batch. -/
def buildGeojsonPolys (parse : Option String → Option Json)
    (data : List PolyRow) : Except Unit FeatureCollection :=
  (buildFeatures parse data).map fun fs => ⟨"FeatureCollection", fs⟩

/-! ### A concrete model of the external `JSON.parse`

Modelled from the spec: `JSON.parse` is a browser builtin (an external
collaborator, not code of this repository).  The spec only requires that the
`geometry` column holds "a JSON-encoded coordinate structure" and that a
malformed string "fails the whole callback".  The model below parses nested
arrays of (signed) integers — enough for every coordinate payload the claims
mention — and fails on anything else; theorems about `addPolygons` are
stated for an arbitrary parse function and this model instantiates their
witnesses. -/

/-- Drop leading JSON whitespace. -/
def skipWs : List Char → List Char
  | c :: cs => if c = ' ' ∨ c = '\t' ∨ c = '\n' ∨ c = '\r' then skipWs cs else c :: cs
  | [] => []

/-- Read a run of decimal digits; fails when no digit was consumed. -/
def readDigits : List Char → Nat → Bool → Option (Nat × List Char)
  | c :: cs, acc, seen =>
    if c.isDigit then readDigits cs (acc * 10 + (c.toNat - '0'.toNat)) true
    else if seen then some (acc, c :: cs) else none
  | [], acc, seen => if seen then some (acc, []) else none

mutual
/-- Recursive-descent parse of one JSON value (number or array). -/
def parseVal : Nat → List Char → Option (Json × List Char)
  | 0, _ => none
  | Nat.succ fuel, cs =>
    match skipWs cs with
    | '[' :: rest =>
      match skipWs rest with
      | ']' :: rest2 => some (Json.arr [], rest2)
      | rest2 =>
        match parseItems fuel rest2 with
        | some (xs, rest3) => some (Json.arr xs, rest3)
        | none => none
    | '-' :: c :: rest =>
      if c.isDigit then
        match readDigits (c :: rest) 0 false with
        | some (n, rest2) => some (Json.num (-(n : Int)), rest2)
        | none => none
      else none
    | c :: rest =>
      if c.isDigit then
        match readDigits (c :: rest) 0 false with
        | some (n, rest2) => some (Json.num (n : Int), rest2)
        | none => none
      else none
    | [] => none

/-- Parse the comma-separated items of a non-empty JSON array, consuming the
closing bracket. -/
def parseItems : Nat → List Char → Option (List Json × List Char)
  | 0, _ => none
  | Nat.succ fuel, cs =>
    match parseVal fuel cs with
    | none => none
    | some (x, rest) =>
      match skipWs rest with
      | ',' :: rest2 =>
        match parseItems fuel rest2 with
        | some (xs, rest3) => some (x :: xs, rest3)
        | none => none
      | ']' :: rest2 => some ([x], rest2)
      | _ => none
end

/-- `JSON.parse` on a string: one value followed only by whitespace. -/
def parseJson (s : String) : Option Json :=
  match parseVal (s.length + 1) s.toList with
  | some (v, rest) => if skipWs rest = [] then some v else none
  | none => none

/-- `JSON.parse(data[row].geometry)`: an absent column is `undefined`, which
`JSON.parse` rejects (it stringifies to the non-JSON text `undefined`). -/
def jsonParseField : Option String → Option Json
  | none => none
  | some s => parseJson s

/-! ### Point markers (`addPoints`, lines 141-158) -/

/-- JS string coercion used by the popup concatenation: an `undefined`
column concatenates as the text `undefined`. -/
def jsStr : Option String → String
  | some s => s
  | none => "undefined"

/-- The argument record of `L.AwesomeMarkers.icon` (lines 148-155).  The JS
key `prefix` is a Lean keyword and is named `pfx` here. -/
structure IconSpec where
  icon : Option String
  iconColor : String
  markerColor : Option String
  pfx : String
  extraClasses : String

/-- A Leaflet marker as configured by the `addPoints` loop body: position
from the raw `lat`/`long` strings (no numeric validation), then `bindPopup`,
then `setIcon`.  A fresh `L.marker` has no popup and no custom icon. -/
structure Marker where
  lat : Option String
  long : Option String
  popup : Option String
  icon : Option IconSpec

/-- One iteration of the `addPoints` loop (lines 142-156): create the marker
at `[data[row].lat, data[row].long]`, bind the popup
`"<h2>"+Type+"</h2><br>"+Title+"<br>"+Comments`, build the AwesomeMarkers
icon and set it. -/
def mkMarker (r : PointRow) : Marker :=
  let marker : Marker := { lat := r.lat, long := r.long, popup := none, icon := none }
  let marker := { marker with
    popup := some ("<h2>" ++ jsStr r.«Type» ++ "</h2><br>" ++ jsStr r.Title
                   ++ "<br>" ++ jsStr r.Comments) }
  let icon : IconSpec :=
    { icon := r.Marker_Icon
      iconColor := "white"
      markerColor := r.Color
      pfx := "fa"
      extraClasses := "flip-horizontal" }
  { marker with icon := some icon }

/-! ### The layer-replacement protocol

`polygonLayer` and `pointGroupLayer` (lines 60-61) are process-wide slots
holding layer handles.  A layer is modelled as an identifier (object
identity) plus its content; the map is the list of currently attached
layers.  `L.geoJSON(...).addTo(map)` / `L.layerGroup().addTo(map)` create a
fresh handle (a fresh identifier) and attach it; `layer.remove()` detaches
the layer with that identifier. -/

/-- What a dynamic layer renders: a polygon GeoJSON layer or a point group. -/
inductive LayerContent where
  | polys (fs : List Feature)
  | pts (ms : List Marker)

/-- An attachable layer: object identity plus content. -/
structure Layer where
  id : Nat
  content : LayerContent

/-- Whether a layer is a polygon GeoJSON layer (as opposed to a point
group). -/
def Layer.isPoly (l : Layer) : Bool :=
  match l.content with
  | .polys _ => true
  | .pts _ => false

/-- The shared mutable state the two callbacks touch: the attached layers
and the two handle slots (`none` models the initial JS `undefined`).
`nextId` supplies fresh object identities. -/
structure MapState where
  nextId : Nat
  attached : List Layer
  polygonLayer : Option Nat
  pointGroupLayer : Option Nat

/-- The initial state: both slots undefined, no dynamic layer attached. -/
def initMap : MapState := { nextId := 0, attached := [], polygonLayer := none, pointGroupLayer := none }

/-- `layer.remove()`: detach the layer with the given identity (a no-op when
it is not attached). -/
def removeLayer (st : MapState) (lid : Nat) : MapState :=
  { st with attached := st.attached.filter fun l => l.id ≠ lid }

/-- The currently attached polygon GeoJSON layers. -/
def polyLayers (st : MapState) : List Layer :=
  st.attached.filter fun l => l.isPoly

/-- The currently attached point groups. -/
def pointLayers (st : MapState) : List Layer :=
  st.attached.filter fun l => !l.isPoly

/-- The slot check at the top of `addPolygons` (lines 67-70): if
`polygonLayer != null`, remove the old layer. -/
def removeOldPolygonLayer (st : MapState) : MapState :=
  match st.polygonLayer with
  | some lid => removeLayer st lid
  | none => st

/-- `addPolygons(data)` (lines 66-131) as a state transformer: remove the
old layer if the slot is non-null, run the row loop, and — unless the loop
threw — attach a fresh `L.geoJSON` layer and store its handle.  The returned
flag is `false` when the unguarded `JSON.parse` threw; the state then
reflects the side effects already performed before the throw. -/
def addPolygons (parse : Option String → Option Json) (data : List PolyRow)
    (st : MapState) : MapState × Bool :=
  let st := removeOldPolygonLayer st
  match buildGeojsonPolys parse data with
  | .error _ => (st, false)
  | .ok geojsonPolys =>
    let layer : Layer := ⟨st.nextId, .polys geojsonPolys.features⟩
    ({ nextId := st.nextId + 1
       attached := st.attached ++ [layer]
       polygonLayer := some layer.id
       pointGroupLayer := st.pointGroupLayer }, true)

/-- The slot check at the top of `addPoints` (lines 136-138): if
`pointGroupLayer != null`, remove the old group. -/
def removeOldPointGroup (st : MapState) : MapState :=
  match st.pointGroupLayer with
  | some lid => removeLayer st lid
  | none => st

/-- `addPoints(data)` (lines 135-159) as a state transformer: remove the old
group if the slot is non-null, attach a fresh `L.layerGroup` and store its
handle, then add one marker per row in input order.  Nothing in the loop can
throw, so the callback always completes. -/
def addPoints (data : List PointRow) (st : MapState) : MapState :=
  let st := removeOldPointGroup st
  let layer : Layer := ⟨st.nextId, .pts (data.map mkMarker)⟩
  { nextId := st.nextId + 1
    attached := st.attached ++ [layer]
    polygonLayer := st.polygonLayer
    pointGroupLayer := some layer.id }

/-- The slots track object identity: a slot referring to a layer is a handle
created earlier (`id < nextId`), the two slots never alias one another, and
any attached dynamic layer is the one its kind's slot holds.  `initMap`
satisfies this and both callbacks preserve it. -/
structure MapWF (st : MapState) : Prop where
  polyBound : ∀ a, st.polygonLayer = some a → a < st.nextId
  pointBound : ∀ a, st.pointGroupLayer = some a → a < st.nextId
  slotsDiffer : ∀ a b, st.polygonLayer = some a → st.pointGroupLayer = some b → a ≠ b
  polySlot : ∀ l ∈ st.attached, l.isPoly = true → st.polygonLayer = some l.id
  pointSlot : ∀ l ∈ st.attached, l.isPoly = false → st.pointGroupLayer = some l.id

/-! ### The interaction binder (panel and hover state) -/

/-- The sidebar panel: open/closed plus the `#sidebar-title` and
`#sidebar-content` text. -/
structure PanelState where
  isOpen : Bool
  title : Option String
  content : Option String

/-- The panel as built at startup (lines 44-51): closed, with the
placeholder title and empty content. -/
def initPanel : PanelState :=
  { isOpen := false, title := some " No item selected", content := some "" }

/-- The result of running a click handler: the new panel state and whether
the handler stopped propagation. -/
structure ClickEffect where
  panel : PanelState
  stopped : Bool

/-- The per-feature click handler (lines 114-126): stop propagation, set the
title to `properties.type`, the content to `properties.myinfo`, and open the
panel. -/
def featureClickHandler (f : Feature) (_p : PanelState) : ClickEffect :=
  { panel := { isOpen := true
               title := f.properties.type
               content := f.properties.myinfo }
    stopped := true }

/-- The map-level click handler (lines 53-57): close the panel.  The
statements clearing the title and content are commented out in the source,
so the displayed text is untouched. -/
def mapClickHandler (p : PanelState) : PanelState :=
  { p with isOpen := false }

/-- DOM dispatch of a click on a rendered feature: the feature handler runs
first, and the map handler runs afterwards only if propagation was not
stopped. -/
def dispatchFeatureClick (f : Feature) (p : PanelState) : PanelState :=
  let e := featureClickHandler f p
  if e.stopped then e.panel else mapClickHandler e.panel

/-- DOM dispatch of a click on empty map area: only the map handler runs. -/
def dispatchMapClick (p : PanelState) : PanelState :=
  mapClickHandler p

/-! ### Hover styling (lines 101-113) -/

/-- The three path options both style objects set. -/
structure PathStyle where
  color : String
  fillColor : String
  weight : Nat

/-- `polygonStyle` (line 102), also passed as the layer's base style. -/
def polygonStyle : PathStyle := { color := "#2ca25f", fillColor := "#99d8c9", weight := 2 }

/-- `polygonHoverStyle` (line 103). -/
def polygonHoverStyle : PathStyle := { color := "green", fillColor := "#2ca25f", weight := 4 }

/-- The two pointer events a feature's hover handlers react to. -/
inductive HoverEvent where
  | mouseout
  | mouseover

/-- The hover handlers (lines 108-113): `mouseout` calls
`setStyle(polygonStyle)`, `mouseover` calls `setStyle(polygonHoverStyle)`;
both set all three options, so the previous style is fully overwritten. -/
def hoverHandler : HoverEvent → PathStyle → PathStyle
  | .mouseout, _ => polygonStyle
  | .mouseover, _ => polygonHoverStyle

/-- Run a sequence of hover events against a feature's current style. -/
def applyHovers (evs : List HoverEvent) (s : PathStyle) : PathStyle :=
  evs.foldl (fun st e => hoverHandler e st) s

/-! ### Helper notions and lemmas -/

/-- The inclusion test of the row loop: `data[row].include == "y"`. -/
def isIncluded (r : PolyRow) : Bool := decide (r.«include» = some "y")

/-- The Feature an included row contributes, when its `geometry` column
parses. -/
def featOf (parse : Option String → Option Json) (r : PolyRow) : Option Feature :=
  (parse r.geometry).map (mkFeature r)

/-- All-or-nothing per-row features of a row list, in input order. -/
def featsOf (parse : Option String → Option Json) :
    List PolyRow → Option (List Feature)
  | [] => some []
  | r :: rs =>
    match featOf parse r with
    | none => none
    | some f => (featsOf parse rs).map (f :: ·)

/-- View an all-or-nothing result as the loop's exception behaviour. -/
def toExcept : Option (List Feature) → Except Unit (List Feature)
  | some fs => .ok fs
  | none => .error ()

lemma buildFeatures_eq_featsOf (parse : Option String → Option Json)
    (rows : List PolyRow) :
    buildFeatures parse rows = toExcept (featsOf parse (rows.filter isIncluded)) := by
  induction rows with
  | nil => rfl
  | cons r rs ih =>
    by_cases h : r.«include» = some "y"
    · rw [show buildFeatures parse (r :: rs)
            = (if r.«include» = some "y" then
                match parse r.geometry with
                | none => .error ()
                | some coords => (buildFeatures parse rs).map (mkFeature r coords :: ·)
              else buildFeatures parse rs) from rfl]
      rw [if_pos h]
      have hf : (r :: rs).filter isIncluded = r :: rs.filter isIncluded := by
        simp [List.filter_cons, isIncluded, h]
      rw [hf]
      cases hp : parse r.geometry with
      | none =>
        simp [featsOf, featOf, hp]
        rfl
      | some coords =>
        rw [ih]
        show Except.map _ _ = toExcept (featsOf parse (r :: rs.filter isIncluded))
        have : featsOf parse (r :: rs.filter isIncluded)
            = (featsOf parse (rs.filter isIncluded)).map (mkFeature r coords :: ·) := by
          simp [featsOf, featOf, hp]
        rw [this]
        cases featsOf parse (rs.filter isIncluded) <;> rfl
    · rw [show buildFeatures parse (r :: rs)
            = (if r.«include» = some "y" then
                match parse r.geometry with
                | none => .error ()
                | some coords => (buildFeatures parse rs).map (mkFeature r coords :: ·)
              else buildFeatures parse rs) from rfl]
      rw [if_neg h]
      have hf : (r :: rs).filter isIncluded = rs.filter isIncluded := by
        simp [List.filter_cons, isIncluded, h]
      rw [hf, ih]

lemma featsOf_length (parse : Option String → Option Json) :
    ∀ (rows : List PolyRow) (fs : List Feature),
      featsOf parse rows = some fs → fs.length = rows.length := by
  intro rows
  induction rows with
  | nil => intro fs h; simp [featsOf] at h; simp [← h]
  | cons r rs ih =>
    intro fs h
    simp only [featsOf] at h
    cases hf : featOf parse r with
    | none => rw [hf] at h; cases h
    | some f =>
      rw [hf] at h
      cases hrest : featsOf parse rs with
      | none => rw [hrest] at h; cases h
      | some l =>
        rw [hrest] at h
        simp only [Option.map_some] at h
        cases h
        simp [List.length_cons, ih l hrest]

lemma buildFeatures_error_of_bad (parse : Option String → Option Json) :
    ∀ (rows : List PolyRow), (∃ r ∈ rows, r.«include» = some "y" ∧ parse r.geometry = none) →
      buildFeatures parse rows = .error () := by
  intro rows
  induction rows with
  | nil => intro h; simp at h
  | cons a rs ih =>
    intro h
    obtain ⟨r, hr, hinc, hp⟩ := h
    rcases List.mem_cons.mp hr with rfl | hmem
    · show (if r.«include» = some "y" then
          match parse r.geometry with
          | none => .error ()
          | some coords => (buildFeatures parse rs).map (mkFeature r coords :: ·)
        else buildFeatures parse rs) = .error ()
      rw [if_pos hinc, hp]
    · show (if a.«include» = some "y" then
          match parse a.geometry with
          | none => .error ()
          | some coords => (buildFeatures parse rs).map (mkFeature a coords :: ·)
        else buildFeatures parse rs) = .error ()
      have hrs := ih ⟨r, hmem, hinc, hp⟩
      by_cases ha : a.«include» = some "y"
      · rw [if_pos ha]
        cases hpa : parse a.geometry with
        | none => rfl
        | some coords => rw [hrs]; rfl
      · rw [if_neg ha]; exact hrs

/-- The state just after the slot check at the top of a callback: the old
layer of that slot, if any, is removed. -/
lemma polyLayers_after_slot_removal (st : MapState) (hwf : MapWF st) :
    polyLayers (removeOldPolygonLayer st) = [] := by
  unfold removeOldPolygonLayer
  cases hslot : st.polygonLayer with
  | none =>
    simp only [polyLayers, List.filter_eq_nil_iff]
    intro l hl hp
    exact Option.noConfusion (hslot ▸ hwf.polySlot l hl hp)
  | some lid =>
    simp only [removeLayer, polyLayers, List.filter_eq_nil_iff]
    intro l hl hp
    have hmem := List.mem_filter.mp hl
    have hid : l.id ≠ lid := by simpa using hmem.2
    have heq : st.polygonLayer = some l.id := hwf.polySlot l hmem.1 hp
    rw [heq] at hslot
    exact hid (Option.some.inj hslot)

lemma pointLayers_after_poly_slot_removal (st : MapState) (hwf : MapWF st) :
    pointLayers (removeOldPolygonLayer st) = pointLayers st := by
  unfold removeOldPolygonLayer
  cases hslot : st.polygonLayer with
  | none => rfl
  | some lid =>
    show pointLayers (removeLayer st lid) = pointLayers st
    simp only [pointLayers, removeLayer]
    rw [List.filter_filter]
    refine List.filter_congr ?_
    intro l hl
    cases hp : l.isPoly with
    | true => simp [hp]
    | false =>
      have hps : st.pointGroupLayer = some l.id := hwf.pointSlot l hl hp
      have hne : lid ≠ l.id := hwf.slotsDiffer lid l.id hslot hps
      simp [hp, Ne.symm hne]

lemma pointLayers_after_group_removal (st : MapState) (hwf : MapWF st) :
    pointLayers (removeOldPointGroup st) = [] := by
  unfold removeOldPointGroup
  cases hslot : st.pointGroupLayer with
  | none =>
    simp only [pointLayers, List.filter_eq_nil_iff]
    intro l hl hp
    have hp' : l.isPoly = false := by simpa using hp
    exact Option.noConfusion (hslot ▸ hwf.pointSlot l hl hp')
  | some lid =>
    simp only [removeOldPointGroup, removeLayer, pointLayers, List.filter_eq_nil_iff]
    intro l hl hp
    have hmem := List.mem_filter.mp hl
    have hid : l.id ≠ lid := by simpa using hmem.2
    have hp' : l.isPoly = false := by simpa using hp
    have heq : st.pointGroupLayer = some l.id := hwf.pointSlot l hmem.1 hp'
    rw [heq] at hslot
    exact hid (Option.some.inj hslot)

lemma polyLayers_after_group_removal (st : MapState) (hwf : MapWF st) :
    polyLayers (removeOldPointGroup st) = polyLayers st := by
  unfold removeOldPointGroup
  cases hslot : st.pointGroupLayer with
  | none => rfl
  | some lid =>
    show polyLayers (removeLayer st lid) = polyLayers st
    simp only [polyLayers, removeLayer]
    rw [List.filter_filter]
    refine List.filter_congr ?_
    intro l hl
    cases hp : l.isPoly with
    | false => simp [hp]
    | true =>
      have hps : st.polygonLayer = some l.id := hwf.polySlot l hl hp
      have hne : l.id ≠ lid := fun he => hwf.slotsDiffer l.id lid hps (he ▸ hslot) he
      simp [hp, hne]

lemma removeOldPolygonLayer_fields (st : MapState) :
    (removeOldPolygonLayer st).nextId = st.nextId
    ∧ (removeOldPolygonLayer st).polygonLayer = st.polygonLayer
    ∧ (removeOldPolygonLayer st).pointGroupLayer = st.pointGroupLayer := by
  unfold removeOldPolygonLayer
  cases hslot : st.polygonLayer with
  | none => exact ⟨rfl, hslot, rfl⟩
  | some lid => exact ⟨rfl, hslot, rfl⟩

lemma removeOldPointGroup_fields (st : MapState) :
    (removeOldPointGroup st).nextId = st.nextId
    ∧ (removeOldPointGroup st).polygonLayer = st.polygonLayer
    ∧ (removeOldPointGroup st).pointGroupLayer = st.pointGroupLayer := by
  unfold removeOldPointGroup
  cases hslot : st.pointGroupLayer with
  | none => exact ⟨rfl, rfl, hslot⟩
  | some lid => exact ⟨rfl, rfl, hslot⟩

lemma mem_removeOldPolygonLayer (st : MapState) (l : Layer) :
    l ∈ (removeOldPolygonLayer st).attached → l ∈ st.attached := by
  unfold removeOldPolygonLayer
  cases st.polygonLayer with
  | none => exact id
  | some lid => exact fun h => (List.mem_filter.mp h).1

lemma mem_removeOldPointGroup (st : MapState) (l : Layer) :
    l ∈ (removeOldPointGroup st).attached → l ∈ st.attached := by
  unfold removeOldPointGroup
  cases st.pointGroupLayer with
  | none => exact id
  | some lid => exact fun h => (List.mem_filter.mp h).1

lemma wf_of_fields_sub (st st' : MapState) (hwf : MapWF st)
    (hn : st'.nextId = st.nextId) (hp : st'.polygonLayer = st.polygonLayer)
    (hq : st'.pointGroupLayer = st.pointGroupLayer)
    (hsub : ∀ l ∈ st'.attached, l ∈ st.attached) : MapWF st' := by
  constructor
  · intro a ha; rw [hn]; exact hwf.polyBound a (hp ▸ ha)
  · intro a ha; rw [hn]; exact hwf.pointBound a (hq ▸ ha)
  · intro a b ha hb; exact hwf.slotsDiffer a b (hp ▸ ha) (hq ▸ hb)
  · intro l hl hpl; rw [hp]; exact hwf.polySlot l (hsub l hl) hpl
  · intro l hl hpl; rw [hq]; exact hwf.pointSlot l (hsub l hl) hpl

lemma wf_removeOldPolygonLayer (st : MapState) (hwf : MapWF st) :
    MapWF (removeOldPolygonLayer st) :=
  wf_of_fields_sub st (removeOldPolygonLayer st) hwf
    (removeOldPolygonLayer_fields st).1 (removeOldPolygonLayer_fields st).2.1
    (removeOldPolygonLayer_fields st).2.2 (mem_removeOldPolygonLayer st)

lemma wf_removeOldPointGroup (st : MapState) (hwf : MapWF st) :
    MapWF (removeOldPointGroup st) :=
  wf_of_fields_sub st (removeOldPointGroup st) hwf
    (removeOldPointGroup_fields st).1 (removeOldPointGroup_fields st).2.1
    (removeOldPointGroup_fields st).2.2 (mem_removeOldPointGroup st)

lemma addPolygons_def (parse : Option String → Option Json) (data : List PolyRow)
    (st : MapState) :
    addPolygons parse data st =
      match buildGeojsonPolys parse data with
      | .error _ => (removeOldPolygonLayer st, false)
      | .ok geojsonPolys =>
        ({ nextId := (removeOldPolygonLayer st).nextId + 1
           attached := (removeOldPolygonLayer st).attached
                        ++ [⟨(removeOldPolygonLayer st).nextId, .polys geojsonPolys.features⟩]
           polygonLayer := some (removeOldPolygonLayer st).nextId
           pointGroupLayer := (removeOldPolygonLayer st).pointGroupLayer }, true) := rfl

lemma addPoints_def (data : List PointRow) (st : MapState) :
    addPoints data st =
      { nextId := (removeOldPointGroup st).nextId + 1
        attached := (removeOldPointGroup st).attached
                     ++ [⟨(removeOldPointGroup st).nextId, .pts (data.map mkMarker)⟩]
        polygonLayer := (removeOldPointGroup st).polygonLayer
        pointGroupLayer := some (removeOldPointGroup st).nextId } := rfl

lemma wf_addPolygons (parse : Option String → Option Json) (rows : List PolyRow)
    (st st' : MapState) (ok : Bool) (hwf : MapWF st)
    (h : addPolygons parse rows st = (st', ok)) : MapWF st' := by
  rw [addPolygons_def] at h
  have hwf1 : MapWF (removeOldPolygonLayer st) := wf_removeOldPolygonLayer st hwf
  cases hb : buildGeojsonPolys parse rows with
  | error e =>
    rw [hb] at h
    cases h
    exact hwf1
  | ok fc =>
    rw [hb] at h
    cases h
    refine ⟨?_, ?_, ?_, ?_, ?_⟩
    · intro a ha
      have : a = (removeOldPolygonLayer st).nextId :=
        (Option.some.inj (show some ((removeOldPolygonLayer st).nextId) = some a from ha)).symm
      show a < (removeOldPolygonLayer st).nextId + 1
      omega
    · intro a ha
      have ha' : (removeOldPolygonLayer st).pointGroupLayer = some a := ha
      have := hwf1.pointBound a ha'
      show a < (removeOldPolygonLayer st).nextId + 1
      omega
    · intro a b hpa hqb
      have ha : a = (removeOldPolygonLayer st).nextId :=
        (Option.some.inj (show some ((removeOldPolygonLayer st).nextId) = some a from hpa)).symm
      have hqb' : (removeOldPolygonLayer st).pointGroupLayer = some b := hqb
      have := hwf1.pointBound b hqb'
      omega
    · intro l hl hpl
      have hl' : l ∈ (removeOldPolygonLayer st).attached
          ++ [⟨(removeOldPolygonLayer st).nextId, .polys fc.features⟩] := hl
      rcases List.mem_append.mp hl' with hmem | hmem
      · have hnil := polyLayers_after_slot_removal st hwf
        rw [polyLayers, List.filter_eq_nil_iff] at hnil
        have hcontra := hnil l hmem
        simp [hpl] at hcontra
      · have hle : l = ⟨(removeOldPolygonLayer st).nextId, .polys fc.features⟩ := by
          simpa using hmem
        subst hle
        rfl
    · intro l hl hpl
      have hl' : l ∈ (removeOldPolygonLayer st).attached
          ++ [⟨(removeOldPolygonLayer st).nextId, .polys fc.features⟩] := hl
      rcases List.mem_append.mp hl' with hmem | hmem
      · exact hwf1.pointSlot l hmem hpl
      · have hle : l = ⟨(removeOldPolygonLayer st).nextId, .polys fc.features⟩ := by
          simpa using hmem
        subst hle
        simp [Layer.isPoly] at hpl

lemma wf_addPoints (rows : List PointRow) (st : MapState) (hwf : MapWF st) :
    MapWF (addPoints rows st) := by
  rw [addPoints_def]
  have hwf1 : MapWF (removeOldPointGroup st) := wf_removeOldPointGroup st hwf
  refine ⟨?_, ?_, ?_, ?_, ?_⟩
  · intro a ha
    have ha' : (removeOldPointGroup st).polygonLayer = some a := ha
    have := hwf1.polyBound a ha'
    show a < (removeOldPointGroup st).nextId + 1
    omega
  · intro a ha
    have : a = (removeOldPointGroup st).nextId :=
      (Option.some.inj (show some ((removeOldPointGroup st).nextId) = some a from ha)).symm
    show a < (removeOldPointGroup st).nextId + 1
    omega
  · intro a b hpa hqb
    have hb : b = (removeOldPointGroup st).nextId :=
      (Option.some.inj (show some ((removeOldPointGroup st).nextId) = some b from hqb)).symm
    have hpa' : (removeOldPointGroup st).polygonLayer = some a := hpa
    have := hwf1.polyBound a hpa'
    omega
  · intro l hl hpl
    have hl' : l ∈ (removeOldPointGroup st).attached
        ++ [⟨(removeOldPointGroup st).nextId, .pts (rows.map mkMarker)⟩] := hl
    rcases List.mem_append.mp hl' with hmem | hmem
    · exact hwf1.polySlot l hmem hpl
    · have hle : l = ⟨(removeOldPointGroup st).nextId, .pts (rows.map mkMarker)⟩ := by
        simpa using hmem
      subst hle
      simp [Layer.isPoly] at hpl
  · intro l hl hpl
    have hl' : l ∈ (removeOldPointGroup st).attached
        ++ [⟨(removeOldPointGroup st).nextId, .pts (rows.map mkMarker)⟩] := hl
    rcases List.mem_append.mp hl' with hmem | hmem
    · have hnil := pointLayers_after_group_removal st hwf
      rw [pointLayers, List.filter_eq_nil_iff] at hnil
      have hcontra := hnil l hmem
      simp [hpl] at hcontra
    · have hle : l = ⟨(removeOldPointGroup st).nextId, .pts (rows.map mkMarker)⟩ := by
        simpa using hmem
      subst hle
      rfl

/-! ### Concrete rows and states used by the witnesses -/

def demoRowY : PolyRow :=
  { «include» := some "y", geometry := some "[[1,2],[3,4]]", geotype := some "LineString"
    Title := some "River Road", «Type» := some "Road", file_num := some "12"
    myinfo := some "info blob" }

def demoRowY2 : PolyRow :=
  { «include» := some "y", geometry := some "[5,6]", geotype := some "Point"
    Title := some "Marker B", «Type» := some "Site", file_num := some "7"
    myinfo := some "second blob" }

def demoRowN : PolyRow :=
  { «include» := some "n", geometry := some "[0]", geotype := some "Point"
    Title := some "skipped", «Type» := some "Other", file_num := none, myinfo := none }

def demoRowMissing : PolyRow :=
  { «include» := none, geometry := none, geotype := none, Title := none
    «Type» := none, file_num := none, myinfo := none }

def demoRowBad : PolyRow :=
  { «include» := some "y", geometry := some "oops", geotype := some "Polygon"
    Title := some "bad", «Type» := some "Area", file_num := none, myinfo := none }

def demoCoords : Json :=
  .arr [.arr [.num 1, .num 2], .arr [.num 3, .num 4]]

def demoCoords2 : Json := .arr [.num 5, .num 6]

def demoPoint : PointRow :=
  { lat := some "30.1", long := some "-90.2", «Type» := some "School"
    Title := some "Dutchtown", Comments := some "note", Marker_Icon := some "flag"
    Color := some "red" }

/-- A state with one polygon layer attached and held in the slot. -/
def demoState : MapState :=
  { nextId := 1, attached := [⟨0, .polys []⟩], polygonLayer := some 0
    pointGroupLayer := none }

lemma initMap_wf : MapWF initMap :=
  ⟨fun _ ha => Option.noConfusion ha,
   fun _ ha => Option.noConfusion ha,
   fun _ _ ha _ => Option.noConfusion ha,
   fun l hl => absurd hl (List.not_mem_nil l),
   fun l hl => absurd hl (List.not_mem_nil l)⟩

lemma demoState_wf : MapWF demoState := by
  refine ⟨?_, ?_, ?_, ?_, ?_⟩
  · intro a ha
    have h0 : (0 : Nat) = a := Option.some.inj (show some 0 = some a from ha)
    show a < 1
    omega
  · intro a ha
    exact Option.noConfusion (show (none : Option Nat) = some a from ha)
  · intro a b ha hb
    exact Option.noConfusion (show (none : Option Nat) = some b from hb)
  · intro l hl hp
    have hle : l = ⟨0, .polys []⟩ := by simpa [demoState] using hl
    subst hle
    rfl
  · intro l hl hp
    have hle : l = ⟨0, .polys []⟩ := by simpa [demoState] using hl
    subst hle
    simp [Layer.isPoly] at hp

/-! ### The claims -/

/-- C1: `addPolygons` emits a Feature for a row iff the row's `include`
field is exactly the string `"y"` — dropping every row whose `include` is
any other value, missing, or undefined leaves the loop's result unchanged,
and on success the collection holds exactly one Feature per included row. -/
theorem include_gate_exact (parse : Option String → Option Json) (rows : List PolyRow) :
    buildFeatures parse rows = buildFeatures parse (rows.filter isIncluded)
    ∧ (∀ fs, buildFeatures parse rows = .ok fs →
        fs.length = (rows.filter isIncluded).length) := by
  constructor
  · rw [buildFeatures_eq_featsOf parse rows,
        buildFeatures_eq_featsOf parse (rows.filter isIncluded)]
    congr 1
    congr 1
    rw [List.filter_filter]
    simp [Bool.and_self]
  · intro fs h
    rw [buildFeatures_eq_featsOf] at h
    cases hf : featsOf parse (rows.filter isIncluded) with
    | none =>
      rw [hf] at h
      exact Except.noConfusion (show Except.error () = Except.ok fs from h)
    | some l =>
      rw [hf] at h
      have hlf : l = fs := Except.ok.inj (show Except.ok l = Except.ok fs from h)
      subst hlf
      exact featsOf_length parse _ l hf

/-- Witness for C1: among a non-included row, an included row and a row with
no `include` column, exactly the included row emits a Feature. -/
theorem include_gate_exact_witness :
    buildFeatures jsonParseField [demoRowN, demoRowY, demoRowMissing]
      = buildFeatures jsonParseField
          ([demoRowN, demoRowY, demoRowMissing].filter isIncluded)
    ∧ [mkFeature demoRowY demoCoords].length
      = ([demoRowN, demoRowY, demoRowMissing].filter isIncluded).length :=
  ⟨(include_gate_exact jsonParseField [demoRowN, demoRowY, demoRowMissing]).1,
   (include_gate_exact jsonParseField [demoRowN, demoRowY, demoRowMissing]).2
     [mkFeature demoRowY demoCoords] rfl⟩

/-- C4: on success the FeatureCollection built by `addPolygons` lists, in
order, exactly the per-row features of the included rows: the all-or-nothing
traversal of the filtered input (which preserves input order) returns
precisely the output feature list. -/
theorem feature_order_stable (parse : Option String → Option Json)
    (rows : List PolyRow) (fc : FeatureCollection)
    (h : buildGeojsonPolys parse rows = .ok fc) :
    featsOf parse (rows.filter isIncluded) = some fc.features := by
  unfold buildGeojsonPolys at h
  cases hb : buildFeatures parse rows with
  | error e =>
    rw [hb] at h
    exact Except.noConfusion (show Except.error e = Except.ok fc from h)
  | ok fs =>
    rw [hb] at h
    have hfc : FeatureCollection.mk "FeatureCollection" fs = fc :=
      Except.ok.inj
        (show Except.ok (FeatureCollection.mk "FeatureCollection" fs) = .ok fc from h)
    rw [buildFeatures_eq_featsOf] at hb
    cases hf : featsOf parse (rows.filter isIncluded) with
    | none =>
      rw [hf] at hb
      exact Except.noConfusion (show Except.error () = Except.ok fs from hb)
    | some l =>
      rw [hf] at hb
      have hl : l = fs := Except.ok.inj (show Except.ok l = Except.ok fs from hb)
      rw [← hfc, hl]

/-- Witness for C4: two included rows around a skipped one come out in input
order. -/
theorem feature_order_stable_witness :
    featsOf jsonParseField ([demoRowY, demoRowN, demoRowY2].filter isIncluded)
      = some [mkFeature demoRowY demoCoords, mkFeature demoRowY2 demoCoords2] :=
  feature_order_stable jsonParseField [demoRowY, demoRowN, demoRowY2]
    ⟨"FeatureCollection", [mkFeature demoRowY demoCoords, mkFeature demoRowY2 demoCoords2]⟩
    rfl

/-- C5: the Feature emitted for an included row takes `geometry.type`
verbatim from the row's `geotype` (no validation), `geometry.coordinates`
from the JSON parse of the row's `geometry` column (no shape validation),
and copies the `Title`, `Type`, `file_num` and `myinfo` columns verbatim. -/
theorem feature_shape_verbatim (parse : Option String → Option Json)
    (r : PolyRow) (coords : Json)
    (hinc : r.«include» = some "y") (hp : parse r.geometry = some coords) :
    buildFeatures parse [r] = .ok [mkFeature r coords]
    ∧ featOf parse r = some (mkFeature r coords)
    ∧ (mkFeature r coords).type = "Feature"
    ∧ (mkFeature r coords).geometry.type = r.geotype
    ∧ (mkFeature r coords).geometry.coordinates = coords
    ∧ (mkFeature r coords).properties.Title = r.Title
    ∧ (mkFeature r coords).properties.type = r.«Type»
    ∧ (mkFeature r coords).properties.file_num = r.file_num
    ∧ (mkFeature r coords).properties.myinfo = r.myinfo := by
  refine ⟨?_, ?_, rfl, rfl, rfl, rfl, rfl, rfl, rfl⟩
  · have hdef : buildFeatures parse [r]
        = (if r.«include» = some "y" then
            match parse r.geometry with
            | none => .error ()
            | some coords => (buildFeatures parse []).map (mkFeature r coords :: ·)
          else buildFeatures parse []) := rfl
    rw [hdef, if_pos hinc, hp]
    rfl
  · unfold featOf
    rw [hp]
    rfl

/-- Witness for C5: the spec's example — `geometry = "[[1,2],[3,4]]"`,
`geotype = "LineString"` — yields geometry
`{type: "LineString", coordinates: [[1,2],[3,4]]}`. -/
theorem feature_shape_verbatim_witness :
    jsonParseField demoRowY.geometry = some demoCoords
    ∧ (mkFeature demoRowY demoCoords).geometry.type = some "LineString"
    ∧ (mkFeature demoRowY demoCoords).geometry.coordinates
        = Json.arr [Json.arr [Json.num 1, Json.num 2], Json.arr [Json.num 3, Json.num 4]]
    ∧ buildFeatures jsonParseField [demoRowY] = .ok [mkFeature demoRowY demoCoords] := by
  have h := feature_shape_verbatim jsonParseField demoRowY demoCoords rfl rfl
  exact ⟨rfl, h.2.2.2.1.trans rfl, by rw [h.2.2.2.2.1]; rfl, h.1⟩

lemma addPolygons_success (parse : Option String → Option Json)
    (rows : List PolyRow) (st st' : MapState) (hwf : MapWF st)
    (h : addPolygons parse rows st = (st', true)) :
    ∃ fs, buildFeatures parse rows = .ok fs
      ∧ polyLayers st' = [⟨st.nextId, .polys fs⟩]
      ∧ pointLayers st' = pointLayers st
      ∧ st'.pointGroupLayer = st.pointGroupLayer
      ∧ st'.polygonLayer = some st.nextId
      ∧ st'.nextId = st.nextId + 1 := by
  rw [addPolygons_def] at h
  cases hb : buildGeojsonPolys parse rows with
  | error e =>
    rw [hb] at h
    exact Bool.noConfusion (show false = true from congrArg Prod.snd h)
  | ok fc =>
    rw [hb] at h
    have hst : st' = { nextId := (removeOldPolygonLayer st).nextId + 1
                       attached := (removeOldPolygonLayer st).attached
                          ++ [⟨(removeOldPolygonLayer st).nextId, .polys fc.features⟩]
                       polygonLayer := some (removeOldPolygonLayer st).nextId
                       pointGroupLayer := (removeOldPolygonLayer st).pointGroupLayer } :=
      (congrArg Prod.fst h).symm
    obtain ⟨fs, hbf, hfc⟩ : ∃ fs, buildFeatures parse rows = .ok fs
        ∧ fc.features = fs := by
      unfold buildGeojsonPolys at hb
      cases hbf : buildFeatures parse rows with
      | error e =>
        rw [hbf] at hb
        exact Except.noConfusion (show Except.error e = Except.ok fc from hb)
      | ok fs =>
        rw [hbf] at hb
        have : FeatureCollection.mk "FeatureCollection" fs = fc :=
          Except.ok.inj
            (show Except.ok (FeatureCollection.mk "FeatureCollection" fs) = .ok fc from hb)
        exact ⟨fs, rfl, by rw [← this]⟩
    refine ⟨fs, hbf, ?_, ?_, ?_, ?_, ?_⟩
    · rw [hst]
      show ((removeOldPolygonLayer st).attached
          ++ [Layer.mk (removeOldPolygonLayer st).nextId (.polys fc.features)]).filter
            (fun l => l.isPoly) = _
      rw [List.filter_append]
      have h1 : polyLayers (removeOldPolygonLayer st) = [] :=
        polyLayers_after_slot_removal st hwf
      rw [polyLayers] at h1
      rw [h1, (removeOldPolygonLayer_fields st).1, hfc]
      rfl
    · rw [hst]
      show ((removeOldPolygonLayer st).attached
          ++ [Layer.mk (removeOldPolygonLayer st).nextId (.polys fc.features)]).filter
            (fun l => !l.isPoly) = _
      rw [List.filter_append]
      have h1 : pointLayers (removeOldPolygonLayer st) = pointLayers st :=
        pointLayers_after_poly_slot_removal st hwf
      rw [pointLayers] at h1
      rw [h1]
      simp [pointLayers, Layer.isPoly]
    · rw [hst]
      exact (removeOldPolygonLayer_fields st).2.2
    · rw [hst]
      show some (removeOldPolygonLayer st).nextId = some st.nextId
      rw [(removeOldPolygonLayer_fields st).1]
    · rw [hst]
      show (removeOldPolygonLayer st).nextId + 1 = st.nextId + 1
      rw [(removeOldPolygonLayer_fields st).1]

lemma addPoints_result (rows : List PointRow) (st : MapState) (hwf : MapWF st) :
    pointLayers (addPoints rows st) = [⟨st.nextId, .pts (rows.map mkMarker)⟩]
    ∧ polyLayers (addPoints rows st) = polyLayers st
    ∧ (addPoints rows st).polygonLayer = st.polygonLayer
    ∧ (addPoints rows st).pointGroupLayer = some st.nextId
    ∧ (addPoints rows st).nextId = st.nextId + 1 := by
  rw [addPoints_def]
  refine ⟨?_, ?_, ?_, ?_, ?_⟩
  · show ((removeOldPointGroup st).attached
        ++ [Layer.mk (removeOldPointGroup st).nextId (.pts (rows.map mkMarker))]).filter
          (fun l => !l.isPoly) = _
    rw [List.filter_append]
    have h1 : pointLayers (removeOldPointGroup st) = [] :=
      pointLayers_after_group_removal st hwf
    rw [pointLayers] at h1
    rw [h1, (removeOldPointGroup_fields st).1]
    rfl
  · show ((removeOldPointGroup st).attached
        ++ [Layer.mk (removeOldPointGroup st).nextId (.pts (rows.map mkMarker))]).filter
          (fun l => l.isPoly) = _
    rw [List.filter_append]
    have h1 : polyLayers (removeOldPointGroup st) = polyLayers st :=
      polyLayers_after_group_removal st hwf
    rw [polyLayers] at h1
    rw [h1]
    simp [polyLayers, Layer.isPoly]
  · exact (removeOldPointGroup_fields st).2.1
  · show some (removeOldPointGroup st).nextId = some st.nextId
    rw [(removeOldPointGroup_fields st).1]
  · show (removeOldPointGroup st).nextId + 1 = st.nextId + 1
    rw [(removeOldPointGroup_fields st).1]

/-- C2: a malformed `geometry` in any included row makes the whole batch
fail: the loop throws, so no FeatureCollection is produced (not even the
features of rows preceding the bad one), no new polygon layer is attached,
and — the old layer having already been removed before the loop — the map is
left with no polygon layer at all; the point-layer side is untouched. -/
theorem parse_failure_aborts_batch (parse : Option String → Option Json)
    (rows : List PolyRow) (st : MapState) (hwf : MapWF st)
    (hbad : ∃ r ∈ rows, r.«include» = some "y" ∧ parse r.geometry = none) :
    buildGeojsonPolys parse rows = .error ()
    ∧ ∀ st' ok, addPolygons parse rows st = (st', ok) →
        ok = false
        ∧ polyLayers st' = []
        ∧ st'.polygonLayer = st.polygonLayer
        ∧ st'.pointGroupLayer = st.pointGroupLayer
        ∧ pointLayers st' = pointLayers st := by
  have herr : buildFeatures parse rows = .error () :=
    buildFeatures_error_of_bad parse rows hbad
  have herr2 : buildGeojsonPolys parse rows = .error () := by
    unfold buildGeojsonPolys
    rw [herr]
    rfl
  refine ⟨herr2, ?_⟩
  intro st' ok h
  rw [addPolygons_def, herr2] at h
  have hst : removeOldPolygonLayer st = st' := congrArg Prod.fst h
  have hok : false = ok := congrArg Prod.snd h
  rw [← hst, ← hok]
  exact ⟨rfl, polyLayers_after_slot_removal st hwf,
    (removeOldPolygonLayer_fields st).2.1, (removeOldPolygonLayer_fields st).2.2,
    pointLayers_after_poly_slot_removal st hwf⟩

/-- Witness for C2: a good included row followed by a bad one, against a
state holding one polygon layer — the batch errors and the map keeps no
polygon layer. -/
theorem parse_failure_aborts_batch_witness :
    buildGeojsonPolys jsonParseField [demoRowY, demoRowBad] = .error ()
    ∧ polyLayers (addPolygons jsonParseField [demoRowY, demoRowBad] demoState).1 = []
    ∧ (addPolygons jsonParseField [demoRowY, demoRowBad] demoState).1.polygonLayer
        = demoState.polygonLayer := by
  have h := parse_failure_aborts_batch jsonParseField [demoRowY, demoRowBad] demoState
    demoState_wf ⟨demoRowBad, by simp, rfl, rfl⟩
  have h2 := h.2 (addPolygons jsonParseField [demoRowY, demoRowBad] demoState).1
    (addPolygons jsonParseField [demoRowY, demoRowBad] demoState).2 rfl
  exact ⟨h.1, h2.2.1, h2.2.2.1⟩

/-- C8: after a callback completes, at most one polygon layer and at most
one point group are attached; each callback replaces only its own kind's
layer and leaves the other kind's slot and layers untouched; running the
polygon replacement twice in succession leaves exactly the second
collection's features attached. -/
theorem layer_replacement_invariant (parse : Option String → Option Json)
    (st : MapState) (hwf : MapWF st) :
    (∀ prows st' ok, addPolygons parse prows st = (st', ok) →
        (polyLayers st').length ≤ 1
        ∧ pointLayers st' = pointLayers st
        ∧ st'.pointGroupLayer = st.pointGroupLayer
        ∧ (ok = true → ∃ fs, buildFeatures parse prows = .ok fs
            ∧ polyLayers st' = [⟨st.nextId, .polys fs⟩]))
    ∧ (∀ qrows,
        pointLayers (addPoints qrows st) = [⟨st.nextId, .pts (qrows.map mkMarker)⟩]
        ∧ polyLayers (addPoints qrows st) = polyLayers st
        ∧ (addPoints qrows st).polygonLayer = st.polygonLayer)
    ∧ (∀ rows1 rows2 st1 st2,
        addPolygons parse rows1 st = (st1, true) →
        addPolygons parse rows2 st1 = (st2, true) →
        ∃ fs2, buildFeatures parse rows2 = .ok fs2
          ∧ polyLayers st2 = [⟨st1.nextId, .polys fs2⟩]) := by
  refine ⟨?_, ?_, ?_⟩
  · intro prows st' ok h
    cases ok with
    | false =>
      rw [addPolygons_def] at h
      cases hb : buildGeojsonPolys parse prows with
      | error e =>
        rw [hb] at h
        have hst : removeOldPolygonLayer st = st' := congrArg Prod.fst h
        rw [← hst]
        refine ⟨?_, pointLayers_after_poly_slot_removal st hwf,
          (removeOldPolygonLayer_fields st).2.2, ?_⟩
        · rw [polyLayers_after_slot_removal st hwf]
          simp
        · intro hok
          exact Bool.noConfusion hok
      | ok fc =>
        rw [hb] at h
        exact Bool.noConfusion (show true = false from congrArg Prod.snd h)
    | true =>
      obtain ⟨fs, hbf, hpl, hptl, hslot, _, _⟩ :=
        addPolygons_success parse prows st st' hwf h
      refine ⟨?_, hptl, hslot, fun _ => ⟨fs, hbf, hpl⟩⟩
      rw [hpl]
      simp
  · intro qrows
    obtain ⟨h1, h2, h3, _, _⟩ := addPoints_result qrows st hwf
    exact ⟨h1, h2, h3⟩
  · intro rows1 rows2 st1 st2 h1 h2
    have hwf1 : MapWF st1 := wf_addPolygons parse rows1 st st1 true hwf h1
    obtain ⟨fs2, hbf2, hpl2, _, _, _, _⟩ :=
      addPolygons_success parse rows2 st1 st2 hwf1 h2
    exact ⟨fs2, hbf2, hpl2⟩

/-- Witness for C8: from the initial state, adding points attaches exactly
one group; two successive polygon callbacks leave exactly the second batch's
features attached. -/
theorem layer_replacement_invariant_witness :
    pointLayers (addPoints [demoPoint] initMap)
      = [⟨0, .pts [mkMarker demoPoint]⟩]
    ∧ polyLayers (addPolygons jsonParseField [demoRowY2]
          (addPolygons jsonParseField [demoRowY] initMap).1).1
      = [⟨1, .polys [mkFeature demoRowY2 demoCoords2]⟩] := by
  have h := layer_replacement_invariant jsonParseField initMap initMap_wf
  refine ⟨(h.2.1 [demoPoint]).1, ?_⟩
  have h3 := h.2.2 [demoRowY] [demoRowY2]
    (addPolygons jsonParseField [demoRowY] initMap).1
    (addPolygons jsonParseField [demoRowY2]
      (addPolygons jsonParseField [demoRowY] initMap).1).1
    rfl rfl
  obtain ⟨fs2, hbf2, hpl2⟩ := h3
  have hfs : fs2 = [mkFeature demoRowY2 demoCoords2] :=
    Except.ok.inj (hbf2.symm.trans rfl)
  rw [hpl2, hfs]
  rfl

/-- C10: when `addPolygons` aborts on a parse failure, the `polygonLayer`
slot is left exactly as it was — still holding the previous, now detached,
handle — and a subsequent successful call still performs its
remove-then-replace sequence and installs the new layer correctly. -/
theorem failed_call_leaves_slot (parse : Option String → Option Json)
    (rows : List PolyRow) (st st' : MapState) (hwf : MapWF st)
    (hfail : addPolygons parse rows st = (st', false)) :
    st'.polygonLayer = st.polygonLayer
    ∧ (∀ lid, st.polygonLayer = some lid → ∀ l ∈ st'.attached, l.id ≠ lid)
    ∧ (∀ rows2 st2, addPolygons parse rows2 st' = (st2, true) →
        ∃ fs2, buildFeatures parse rows2 = .ok fs2
          ∧ polyLayers st2 = [⟨st'.nextId, .polys fs2⟩]
          ∧ st2.polygonLayer = some st'.nextId) := by
  rw [addPolygons_def] at hfail
  cases hb : buildGeojsonPolys parse rows with
  | ok fc =>
    rw [hb] at hfail
    exact Bool.noConfusion (show true = false from congrArg Prod.snd hfail)
  | error e =>
    rw [hb] at hfail
    have hst : removeOldPolygonLayer st = st' := congrArg Prod.fst hfail
    have hwf' : MapWF st' := hst ▸ wf_removeOldPolygonLayer st hwf
    refine ⟨?_, ?_, ?_⟩
    · rw [← hst]
      exact (removeOldPolygonLayer_fields st).2.1
    · intro lid hslot l hl
      rw [← hst] at hl
      revert hl
      unfold removeOldPolygonLayer
      rw [hslot]
      intro hl
      have := (List.mem_filter.mp hl).2
      simpa using this
    · intro rows2 st2 h2
      obtain ⟨fs2, hbf2, hpl2, _, _, hslot2, _⟩ :=
        addPolygons_success parse rows2 st' st2 hwf' h2
      exact ⟨fs2, hbf2, hpl2, hslot2⟩

/-- Witness for C10: a failed call against a state holding layer 0 keeps the
slot at 0 with the layer detached; a following successful call installs the
new layer. -/
theorem failed_call_leaves_slot_witness :
    (addPolygons jsonParseField [demoRowBad] demoState).1.polygonLayer = some 0
    ∧ polyLayers (addPolygons jsonParseField [demoRowY]
          (addPolygons jsonParseField [demoRowBad] demoState).1).1
      = [⟨1, .polys [mkFeature demoRowY demoCoords]⟩] := by
  have h := failed_call_leaves_slot jsonParseField [demoRowBad] demoState
    (addPolygons jsonParseField [demoRowBad] demoState).1 demoState_wf rfl
  refine ⟨h.1.trans rfl, ?_⟩
  have h3 := h.2.2 [demoRowY]
    (addPolygons jsonParseField [demoRowY]
      (addPolygons jsonParseField [demoRowBad] demoState).1).1 rfl
  obtain ⟨fs2, hbf2, hpl2, _⟩ := h3
  have hfs : fs2 = [mkFeature demoRowY demoCoords] :=
    Except.ok.inj (hbf2.symm.trans rfl)
  rw [hpl2, hfs]
  rfl

/-- Counterexample to C3 as stated: after a feature click, a map-level click
closes the panel but does NOT clear the title and body — they still hold the
clicked feature's text, because the clearing statements (source lines 55-56)
are commented out. -/
theorem panel_click_counterexample :
    (dispatchMapClick (dispatchFeatureClick (mkFeature demoRowY demoCoords) initPanel)).isOpen
      = false
    ∧ (dispatchMapClick (dispatchFeatureClick (mkFeature demoRowY demoCoords) initPanel)).title
        = some "Road"
    ∧ (dispatchMapClick (dispatchFeatureClick (mkFeature demoRowY demoCoords) initPanel)).content
        = some "info blob"
    ∧ (some "Road" : Option String) ≠ some ""
    ∧ (some "info blob" : Option String) ≠ some ""
    ∧ (some "Road" : Option String) ≠ none :=
  ⟨rfl, rfl, rfl, by decide, by decide, by decide⟩

/-- C3 (amended): clicking a rendered feature stops propagation (so the
map's own click handler does not run), sets the panel title to the feature's
`properties.type`, the body to `properties.myinfo`, and opens the panel; a
map-level click closes the panel but leaves the displayed title and body
text unchanged. -/
theorem panel_click_behavior (f : Feature) (p q : PanelState) :
    dispatchFeatureClick f p
      = { isOpen := true, title := f.properties.type, content := f.properties.myinfo }
    ∧ (featureClickHandler f p).stopped = true
    ∧ dispatchMapClick q
      = { isOpen := false, title := q.title, content := q.content } :=
  ⟨rfl, rfl, rfl⟩

/-- C6: `addPoints` attaches exactly one marker per row, in input order,
positioned at the row's raw `lat`/`long` values (no numeric validation —
whatever string is present propagates), with popup
`<h2>Type</h2><br>Title<br>Comments` and an icon taking the row's
`Marker_Icon` as glyph name and `Color` as marker color, with the fixed
`fa` prefix. -/
theorem points_in_order (rows : List PointRow) (st : MapState) (hwf : MapWF st) :
    pointLayers (addPoints rows st) = [⟨st.nextId, .pts (rows.map mkMarker)⟩]
    ∧ ∀ r, mkMarker r =
        { lat := r.lat, long := r.long
          popup := some ("<h2>" ++ jsStr r.«Type» ++ "</h2><br>" ++ jsStr r.Title
                         ++ "<br>" ++ jsStr r.Comments)
          icon := some { icon := r.Marker_Icon, iconColor := "white"
                         markerColor := r.Color, pfx := "fa"
                         extraClasses := "flip-horizontal" } } :=
  ⟨(addPoints_result rows st hwf).1, fun _ => rfl⟩

/-- Witness for C6: the spec's example point row — lat 30.1, long -90.2,
icon "flag", color "red" — yields one marker at that position with that icon
request. -/
theorem points_in_order_witness :
    pointLayers (addPoints [demoPoint] initMap) = [⟨0, .pts [mkMarker demoPoint]⟩]
    ∧ (mkMarker demoPoint).lat = some "30.1"
    ∧ (mkMarker demoPoint).long = some "-90.2"
    ∧ (mkMarker demoPoint).icon
        = some { icon := some "flag", iconColor := "white", markerColor := some "red"
                 pfx := "fa", extraClasses := "flip-horizontal" } := by
  have h := points_in_order [demoPoint] initMap initMap_wf
  exact ⟨h.1, rfl, rfl, rfl⟩

/-- C7: the pointer-out handler sets exactly the default style (`#2ca25f`,
`#99d8c9`, weight 2) and the pointer-over handler exactly the highlight
style (`green`, `#2ca25f`, weight 4); both are constant in the previous
style, so after any event sequence the style equals the style produced by
the last event alone — no drift over repeated cycles. -/
theorem hover_style_idempotent (s s' : PathStyle) :
    hoverHandler .mouseout s = { color := "#2ca25f", fillColor := "#99d8c9", weight := 2 }
    ∧ hoverHandler .mouseover s = { color := "green", fillColor := "#2ca25f", weight := 4 }
    ∧ ∀ (pre : List HoverEvent) (e : HoverEvent),
        applyHovers (pre ++ [e]) s = hoverHandler e s' := by
  refine ⟨rfl, rfl, ?_⟩
  intro pre e
  unfold applyHovers
  rw [List.foldl_append]
  show hoverHandler e (List.foldl _ s pre) = hoverHandler e s'
  cases e <;> rfl

/-- C9: the icon glyph color, prefix and extra CSS class are the constants
`white`, `fa` and `flip-horizontal` for every row; the row's `Color` feeds
only `markerColor` and `Marker_Icon` only the glyph name. -/
theorem icon_constants (r : PointRow) :
    ∃ spec : IconSpec, (mkMarker r).icon = some spec
      ∧ spec.iconColor = "white"
      ∧ spec.pfx = "fa"
      ∧ spec.extraClasses = "flip-horizontal"
      ∧ spec.markerColor = r.Color
      ∧ spec.icon = r.Marker_Icon :=
  ⟨_, rfl, rfl, rfl, rfl, rfl, rfl⟩
